import Mathlib

/-!
Shallow embedding of `src/python/anomaly_detector.py` (class `AnomalyDetector`)
and verification of its specification claims.

Modelling conventions:
* A telemetry record is a Python dict; every field access `point['f']` may
  raise `KeyError`, so each field is an `Option` and dict access is an
  `Except DetErr` computation.
* Floats are modelled as `ℚ` (only comparisons and data movement occur).
* The sklearn `StandardScaler` / `IsolationForest` pair is abstracted as a
  `Backend`: the claims depend only on when `fit`/`transform`/`predict` are
  called and with which state, never on the numerics.  `predict` returns an
  `Int` (`-1` = outlier, `1` = inlier) as in sklearn.
* Mutable attributes of the `AnomalyDetector` object are threaded as a
  `DetState`.  A Python exception escaping a method is `.error`; because an
  exception leaves mutations made so far in place, the error value of
  `detect_anomalies` carries the state at the moment of the raise.
* `datetime.now().isoformat()` is an opaque input `now : ℚ`.
-/

/-- Feature vector `[altitude, airspeed, pitch, vibration]`. -/
abbrev Vec := List ℚ

/-- Severity tiers returned by `calculate_severity`. -/
inductive Severity
  | LOW
  | MEDIUM
  | HIGH
  | CRITICAL
  deriving DecidableEq, Repr

/-- A telemetry record (a JSON object / Python dict).  Every field may be
absent, matching dict semantics; `trainingPhase` is read with
`.get('trainingPhase', True)` so it too is optional. -/
structure Record where
  timestamp : Option ℚ
  altitude : Option ℚ
  airspeed : Option ℚ
  pitch : Option ℚ
  vibration : Option ℚ
  engineFailure : Option Bool
  trainingPhase : Option Bool
  deriving DecidableEq, Repr

/-- Errors: `keyError f` models Python's `KeyError: 'f'` from `point['f']`. -/
inductive DetErr
  | keyError (field : String)
  deriving DecidableEq, Repr

/-- Dict access `point['name']`: raises `KeyError` when the field is absent. -/
def getKey (name : String) (v : Option α) : Except DetErr α :=
  match v with
  | some x => .ok x
  | none => .error (.keyError name)

/-- `extract_features` (lines 40-47): reads the four required fields in
order, raising `KeyError` on the first absent one. -/
def extract_features (p : Record) : Except DetErr Vec := do
  let a ← getKey "altitude" p.altitude
  let sp ← getKey "airspeed" p.airspeed
  let pi ← getKey "pitch" p.pitch
  let v ← getKey "vibration" p.vibration
  return [a, sp, pi, v]

/-- The list comprehension `[self.extract_features(point) for point in pts]`:
left-to-right, the first `KeyError` aborts the whole comprehension. -/
def extractAll : List Record → Except DetErr (List Vec)
  | [] => .ok []
  | p :: ps => do
    let v ← extract_features p
    let vs ← extractAll ps
    return (v :: vs)

/-- `calculate_severity` (lines 103-113) as the pure function of the
vibration value it branches on. -/
def calculate_severity (vibration : ℚ) : Severity :=
  if vibration > 8 then .CRITICAL
  else if vibration > 6 then .HIGH
  else if vibration > 4 then .MEDIUM
  else .LOW

/-- Abstraction of the sklearn backend: `scalerFit`/`scalerTransform` stand
for `StandardScaler.fit`+`transform`, `modelFit`/`modelPredict` for
`IsolationForest.fit`/`predict` (per-vector).  `σ` is the scaler state,
`μ` the fitted model state. -/
structure Backend (σ μ : Type) where
  scalerFit : List Vec → σ
  scalerTransform : σ → Vec → Vec
  modelFit : List Vec → μ
  modelPredict : μ → Vec → Int

/-- The mutable attributes of the `AnomalyDetector` object relevant to the
detection engine: `self.scaler`, `self.model`, `self.is_trained`,
`self.training_data`, `self.incorrect_anomalies`. -/
structure DetState (σ μ : Type) where
  scaler : σ
  model : μ
  is_trained : Bool
  training_data : List Record
  incorrect_anomalies : Nat
  deriving DecidableEq

/-- An anomaly dict built at lines 78-87. -/
structure Anomaly where
  timestamp : ℚ
  altitude : ℚ
  airspeed : ℚ
  pitch : ℚ
  vibration : ℚ
  engineFailure : Bool
  detected_at : ℚ
  severity : Severity
  deriving DecidableEq, Repr

/-- `train_model` (lines 49-61).  Returns the Python boolean result together
with the updated object state.  With fewer than 120 points it prints and
returns `False`, touching nothing; otherwise it extracts features (a
`KeyError` there propagates), refits the scaler on this batch, fits the
model on the scaled batch and sets `is_trained`. -/
def train_model (B : Backend σ μ) (s : DetState σ μ) (td : List Record) :
    Except DetErr (Bool × DetState σ μ) :=
  if td.length < 120 then .ok (false, s)
  else
    match extractAll td with
    | .error e => .error e
    | .ok feats =>
      let scaler := B.scalerFit feats
      let model := B.modelFit (feats.map (B.scalerTransform scaler))
      .ok (true, { s with scaler := scaler, model := model, is_trained := true })

/-- Building the anomaly dict (lines 78-87): field accesses happen in the
order of the dict literal, so the first absent field among
timestamp, altitude, airspeed, pitch, vibration, engineFailure raises. -/
def build_anomaly (now : ℚ) (p : Record) : Except DetErr Anomaly := do
  let ts ← getKey "timestamp" p.timestamp
  let alt ← getKey "altitude" p.altitude
  let spd ← getKey "airspeed" p.airspeed
  let pit ← getKey "pitch" p.pitch
  let vib ← getKey "vibration" p.vibration
  let ef ← getKey "engineFailure" p.engineFailure
  return { timestamp := ts, altitude := alt, airspeed := spd, pitch := pit,
           vibration := vib, engineFailure := ef, detected_at := now,
           severity := calculate_severity vib }

/-- The body of the `for i, (point, pred) in enumerate(zip(...))` loop
(lines 76-99) for one point.  On the false-positive branch the record is
appended to `self.training_data`, the counter incremented, and when the
counter exceeds 10 the model retrains over the full buffer (the returned
boolean is discarded) and the counter resets.  The error value carries the
object state at the moment of the raise (mutations so far persist). -/
def process_point (B : Backend σ μ) (now : ℚ)
    (acc : List Anomaly × DetState σ μ) (pp : Record × Int) :
    Except (DetState σ μ × DetErr) (List Anomaly × DetState σ μ) :=
  let anoms := acc.1
  let s := acc.2
  let point := pp.1
  let pred := pp.2
  if pred = -1 then
    match build_anomaly now point with
    | .error e => .error (s, e)
    | .ok anomaly =>
      if anomaly.engineFailure then .ok (anoms ++ [anomaly], s)
      else
        let s1 : DetState σ μ :=
          { s with training_data := s.training_data ++ [point],
                   incorrect_anomalies := s.incorrect_anomalies + 1 }
        if s1.incorrect_anomalies > 10 then
          match train_model B s1 s1.training_data with
          | .error e => .error (s1, e)
          | .ok r => .ok (anoms, { r.2 with incorrect_anomalies := 0 })
        else .ok (anoms, s1)
  else .ok (anoms, s)

/-- The per-point loop itself, folding `process_point` left-to-right. -/
def detect_loop (B : Backend σ μ) (now : ℚ) :
    List (Record × Int) → List Anomaly × DetState σ μ →
    Except (DetState σ μ × DetErr) (List Anomaly × DetState σ μ)
  | [], acc => .ok acc
  | pp :: rest, acc =>
    match process_point B now acc pp with
    | .error e => .error e
    | .ok acc' => detect_loop B now rest acc'

/-- `detect_anomalies` (lines 63-101).  An untrained model prints a notice
and returns the empty list with nothing changed.  Otherwise features for the
WHOLE batch are extracted up front (line 69; a `KeyError` aborts the call
with no per-point processing done), scaled with the CURRENT scaler and
scored with the CURRENT model up front (lines 70-73), and then the per-point
loop runs over the precomputed predictions. -/
def detect_anomalies (B : Backend σ μ) (now : ℚ) (s : DetState σ μ)
    (data_points : List Record) :
    Except (DetState σ μ × DetErr) (List Anomaly × DetState σ μ) :=
  if s.is_trained then
    match extractAll data_points with
    | .error e => .error (s, e)
    | .ok features =>
      let predictions :=
        (features.map (B.scalerTransform s.scaler)).map (B.modelPredict s.model)
      detect_loop B now (data_points.zip predictions) ([], s)
  else .ok ([], s)

/-- The on-disk anomaly store: a JSON array file that may be missing or
unparsable. -/
inductive StoreFile
  | missing
  | corrupt
  | stored (entries : List Anomaly)
  deriving DecidableEq, Repr

/-- The read step of `save_anomalies` (lines 117-123): a missing or
unparsable store is treated as the empty collection. -/
def read_store : StoreFile → List Anomaly
  | .missing => []
  | .corrupt => []
  | .stored es => es

/-- `save_anomalies` (lines 115-132): read-modify-write, rewriting the store
as the prior entries followed by the new anomalies. -/
def save_anomalies (store : StoreFile) (new_anomalies : List Anomaly) : StoreFile :=
  .stored (read_store store ++ new_anomalies)

/-- The training step of one cycle (lines 152-154): when the batch has
training-phase records and the model is untrained, extend the buffer and
attempt a fit over the full buffer; an exception leaves the extension in
place and propagates. -/
def trainPhaseStep (B : Backend σ μ) (s : DetState σ μ) (training : List Record) :
    Except (DetState σ μ × DetErr) (DetState σ μ) :=
  if !training.isEmpty && !s.is_trained then
    let s1 : DetState σ μ := { s with training_data := s.training_data ++ training }
    match train_model B s1 s1.training_data with
    | .error e => .error (s1, e)
    | .ok r => .ok r.2
  else .ok s

/-- The scoring step of one cycle (lines 157-162): when the batch has
scoring-phase records and the model is trained, run detection and persist
any confirmed anomalies. -/
def scorePhaseStep (B : Backend σ μ) (now : ℚ) (s : DetState σ μ)
    (store : StoreFile) (testing : List Record) :
    Except (DetState σ μ × DetErr) (DetState σ μ × StoreFile) :=
  if !testing.isEmpty && s.is_trained then
    match detect_anomalies B now s testing with
    | .error e => .error e
    | .ok r =>
      .ok (r.2, if r.1.isEmpty then store else save_anomalies store r.1)
  else .ok (s, store)

/-- One iteration of `run_detection_loop`'s `while` body (lines 143-173),
with the records read from the telemetry file passed in as `new_data`.
Partitioning uses `d.get('trainingPhase', True)`.  The returned boolean is
whether an exception was caught by the cycle's handler (which then sleeps 5
instead of 2 and continues); the state inside an error is kept, mutations
made before the raise included. -/
def runCycle (B : Backend σ μ) (now : ℚ) (s : DetState σ μ) (store : StoreFile)
    (new_data : List Record) : DetState σ μ × StoreFile × Bool :=
  if new_data.isEmpty then (s, store, false)
  else
    let training := new_data.filter (fun d => d.trainingPhase.getD true)
    let testing := new_data.filter (fun d => !(d.trainingPhase.getD true))
    match trainPhaseStep B s training with
    | .error r => (r.1, store, true)
    | .ok s1 =>
      match scorePhaseStep B now s1 store testing with
      | .error r => (r.1, store, true)
      | .ok r => (r.1, r.2, false)

/-- Severity tiers in their intended order `LOW < MEDIUM < HIGH < CRITICAL`. -/
def sevRank : Severity → Nat
  | .LOW => 0
  | .MEDIUM => 1
  | .HIGH => 2
  | .CRITICAL => 3

/-- Pair-level test: the precomputed label is outlier and the ground truth
flag is true (the anomaly-persisting branch of lines 88/97). -/
def outlierPairTrue (pp : Record × Int) : Bool :=
  (pp.2 == -1) && (pp.1.engineFailure == some true)

/-- Pair-level test: the precomputed label is outlier and the ground truth
flag is false (the false-positive branch of lines 88-96). -/
def outlierPairFalse (pp : Record × Int) : Bool :=
  (pp.2 == -1) && (pp.1.engineFailure == some false)

/-! ### Concrete instances, used to evaluate the development on inputs -/

/-- A concrete backend: trivial scaler, model state = the training set it
was fitted on; a vector is an outlier when its vibration entry (index 3)
exceeds 5.  Lets retrains be observed (the model field changes). -/
def B0 : Backend Unit (List Vec) where
  scalerFit := fun _ => ()
  scalerTransform := fun _ v => v
  modelFit := fun tds => tds
  modelPredict := fun _ v => if 5 < v.getD 3 0 then -1 else 1

/-- A concrete trained state with empty buffer and zero counter. -/
def s0 : DetState Unit (List Vec) where
  scaler := ()
  model := []
  is_trained := true
  training_data := []
  incorrect_anomalies := 0

/-- A concrete untrained state. -/
def sU : DetState Unit (List Vec) where
  scaler := ()
  model := []
  is_trained := false
  training_data := []
  incorrect_anomalies := 0

/-- A complete scoring record that `B0`/`s0` labels outlier, with
`engineFailure = true`. -/
def rTrue : Record where
  timestamp := some 100
  altitude := some 30000
  airspeed := some 450
  pitch := some 2
  vibration := some 9
  engineFailure := some true
  trainingPhase := some false

/-- A complete scoring record that `B0`/`s0` labels outlier, with
`engineFailure = false` (a false positive). -/
def rFP : Record where
  timestamp := some 101
  altitude := some 31000
  airspeed := some 440
  pitch := some 1
  vibration := some 7
  engineFailure := some false
  trainingPhase := some false

/-- A scoring record missing the required `altitude` field. -/
def rBad : Record where
  timestamp := some 102
  altitude := none
  airspeed := some 450
  pitch := some 2
  vibration := some 9
  engineFailure := some true
  trainingPhase := some false

/-- A scoring record that `B0`/`s0` labels outlier but whose
`engineFailure` field is absent. -/
def rNoEF : Record where
  timestamp := some 103
  altitude := some 30000
  airspeed := some 450
  pitch := some 2
  vibration := some 9
  engineFailure := none
  trainingPhase := some false

/-- A complete training record (inlier under `B0`). -/
def rTrain : Record where
  timestamp := some 1
  altitude := some 30000
  airspeed := some 450
  pitch := some 2
  vibration := some 2
  engineFailure := some false
  trainingPhase := some true

/-! ### Completeness helpers and total views of extraction -/

/-- A record carrying the four fields `extract_features` requires. -/
def featuresComplete (p : Record) : Bool :=
  p.altitude.isSome && p.airspeed.isSome && p.pitch.isSome && p.vibration.isSome

/-- A record on which the anomaly dict of lines 78-87 can be built:
the four feature fields plus `timestamp` and `engineFailure`. -/
def complete (p : Record) : Bool :=
  p.timestamp.isSome && (featuresComplete p && p.engineFailure.isSome)

/-- Total view of the feature vector (meaningful on complete records). -/
def featsOf (p : Record) : Vec :=
  [p.altitude.getD 0, p.airspeed.getD 0, p.pitch.getD 0, p.vibration.getD 0]

/-- The inlier/outlier label a given model state assigns to a record:
scale with the state's scaler, score with the state's model. -/
def isOutlier (B : Backend σ μ) (s : DetState σ μ) (p : Record) : Bool :=
  B.modelPredict s.model (B.scalerTransform s.scaler (featsOf p)) == -1

/-- Total view of the anomaly dict (meaningful on complete records). -/
def mkAnomaly (now : ℚ) (p : Record) : Anomaly where
  timestamp := p.timestamp.getD 0
  altitude := p.altitude.getD 0
  airspeed := p.airspeed.getD 0
  pitch := p.pitch.getD 0
  vibration := p.vibration.getD 0
  engineFailure := p.engineFailure.getD true
  detected_at := now
  severity := calculate_severity (p.vibration.getD 0)

/-- Record-level test: the ENTRY state `s` labels `p` outlier and
`engineFailure` is `true`. -/
def outlierRecTrue (B : Backend σ μ) (s : DetState σ μ) (p : Record) : Bool :=
  isOutlier B s p && (p.engineFailure == some true)

/-- Record-level test: the ENTRY state `s` labels `p` outlier and
`engineFailure` is `false`. -/
def outlierRecFalse (B : Backend σ μ) (s : DetState σ μ) (p : Record) : Bool :=
  isOutlier B s p && (p.engineFailure == some false)

/-- A record with all four required feature fields and a timestamp
present. -/
def mkRec (ts alt spd pit vib : ℚ) (ef : Option Bool) (tp : Option Bool) : Record :=
  ⟨some ts, some alt, some spd, some pit, some vib, ef, tp⟩

theorem extract_features_complete (p : Record) (h : featuresComplete p = true) :
    extract_features p = .ok (featsOf p) := by
  simp only [featuresComplete, Bool.and_eq_true, Option.isSome_iff_exists] at h
  obtain ⟨⟨⟨⟨a, ha⟩, ⟨sp, hsp⟩⟩, ⟨pi, hpi⟩⟩, ⟨v, hv⟩⟩ := h
  unfold extract_features featsOf
  rw [ha, hsp, hpi, hv]
  rfl

theorem build_anomaly_complete (now : ℚ) (p : Record) (h : complete p = true) :
    build_anomaly now p = .ok (mkAnomaly now p) := by
  simp only [complete, featuresComplete, Bool.and_eq_true,
    Option.isSome_iff_exists] at h
  obtain ⟨⟨ts, hts⟩, ⟨⟨⟨⟨a, ha⟩, ⟨sp, hsp⟩⟩, ⟨pi, hpi⟩⟩, ⟨v, hv⟩⟩, ⟨ef, hef⟩⟩ := h
  unfold build_anomaly mkAnomaly
  rw [hts, ha, hsp, hpi, hv, hef]
  rfl

theorem extractAll_complete (l : List Record)
    (h : ∀ p ∈ l, featuresComplete p = true) :
    extractAll l = .ok (l.map featsOf) := by
  induction l with
  | nil => rfl
  | cons p ps ih =>
    have hp := extract_features_complete p (h p (by simp))
    have hps := ih (fun q hq => h q (by simp [hq]))
    unfold extractAll
    rw [hp, hps]
    rfl

theorem train_model_ok (B : Backend σ μ) (s : DetState σ μ) (td : List Record)
    (h : ∀ q ∈ td, featuresComplete q = true) :
    ∃ b s2, train_model B s td = .ok (b, s2) ∧
      s2.training_data = s.training_data ∧
      s2.incorrect_anomalies = s.incorrect_anomalies ∧
      (s.is_trained = true → s2.is_trained = true) := by
  unfold train_model
  by_cases hlen : td.length < 120
  · rw [if_pos hlen]
    exact ⟨false, s, rfl, rfl, rfl, fun h => h⟩
  · rw [if_neg hlen, extractAll_complete td h]
    exact ⟨true, _, rfl, rfl, rfl, fun _ => rfl⟩

/-! ### Characterizing the per-point loop -/

theorem detect_loop_cons_ok (B : Backend σ μ) (now : ℚ) (pp : Record × Int)
    (rest : List (Record × Int)) (acc acc' : List Anomaly × DetState σ μ)
    (h : process_point B now acc pp = .ok acc') :
    detect_loop B now (pp :: rest) acc = detect_loop B now rest acc' := by
  simp [detect_loop, h]

/-- What the per-point loop does on a batch of complete records zipped with
precomputed labels: the anomalies appended are exactly the pairs labelled
outlier with `engineFailure=true`, in order, and the training buffer grows
by exactly the pairs labelled outlier with `engineFailure=false`, in order.
Which branch a pair takes depends only on the pair itself, never on the
state mutated so far. -/
theorem detect_loop_spec (B : Backend σ μ) (now : ℚ) (pts : List (Record × Int))
    (anoms : List Anomaly) (st : DetState σ μ)
    (hpts : ∀ pp ∈ pts, complete pp.1 = true)
    (hst : ∀ q ∈ st.training_data, featuresComplete q = true) :
    ∃ st', detect_loop B now pts (anoms, st) =
        .ok (anoms ++ (pts.filter outlierPairTrue).map (fun pp => mkAnomaly now pp.1),
             st') ∧
      st'.training_data =
        st.training_data ++ (pts.filter outlierPairFalse).map Prod.fst := by
  induction pts generalizing anoms st with
  | nil => exact ⟨st, by simp [detect_loop], by simp⟩
  | cons pp rest ih =>
    obtain ⟨p, pr⟩ := pp
    have hc : complete p = true := hpts (p, pr) (by simp)
    have hfc : featuresComplete p = true := by
      simp only [complete, Bool.and_eq_true] at hc
      exact hc.2.1
    have hc' : complete p = true := hpts (p, pr) (by simp)
    have hrest : ∀ q ∈ rest, complete q.1 = true := fun q hq => hpts q (by simp [hq])
    by_cases hpr : pr = -1
    · subst hpr
      have hbld := build_anomaly_complete now p hc'
      have hef : ∃ b, p.engineFailure = some b := by
        simp only [complete, Bool.and_eq_true, Option.isSome_iff_exists] at hc
        exact hc.2.2
      obtain ⟨b, hefb⟩ := hef
      cases b with
      | true =>
        have hstep : process_point B now (anoms, st) (p, -1) =
            .ok (anoms ++ [mkAnomaly now p], st) := by
          simp [process_point, hbld, mkAnomaly, hefb]
        obtain ⟨st', h1, h2⟩ := ih (anoms ++ [mkAnomaly now p]) st hrest hst
        refine ⟨st', ?_, ?_⟩
        · rw [detect_loop_cons_ok B now _ rest _ _ hstep, h1]
          simp [outlierPairTrue, outlierPairFalse, hefb]
        · rw [h2]
          simp [outlierPairFalse, hefb]
      | false =>
        have hst1 : ∀ q ∈ st.training_data ++ [p], featuresComplete q = true := by
          intro q hq
          rcases List.mem_append.mp hq with h | h
          · exact hst q h
          · simp only [List.mem_singleton] at h
            subst h
            exact hfc
        by_cases hthr : st.incorrect_anomalies + 1 > 10
        · obtain ⟨b2, s2, htm, htd2, hci2, hit2⟩ :=
            train_model_ok B
              { st with training_data := st.training_data ++ [p],
                        incorrect_anomalies := st.incorrect_anomalies + 1 }
              (st.training_data ++ [p]) hst1
          have hstep : process_point B now (anoms, st) (p, -1) =
              .ok (anoms, { s2 with incorrect_anomalies := 0 }) := by
            simp [process_point, hbld, mkAnomaly, hefb, hthr, htm]
          have hst2 : ∀ q ∈ (DetState.mk s2.scaler s2.model s2.is_trained
              s2.training_data 0 : DetState σ μ).training_data,
              featuresComplete q = true := by
            intro q hq
            simp only at hq
            rw [htd2] at hq
            exact hst1 q hq
          obtain ⟨st', h1, h2⟩ := ih anoms { s2 with incorrect_anomalies := 0 } hrest hst2
          refine ⟨st', ?_, ?_⟩
          · rw [detect_loop_cons_ok B now _ rest _ _ hstep, h1]
            simp [outlierPairTrue, hefb]
          · rw [h2]
            simp only
            rw [htd2]
            simp [outlierPairFalse, hefb]
        · have hstep : process_point B now (anoms, st) (p, -1) =
              .ok (anoms, { st with training_data := st.training_data ++ [p],
                                    incorrect_anomalies := st.incorrect_anomalies + 1 }) := by
            simp [process_point, hbld, mkAnomaly, hefb, hthr]
          obtain ⟨st', h1, h2⟩ := ih anoms
            { st with training_data := st.training_data ++ [p],
                      incorrect_anomalies := st.incorrect_anomalies + 1 } hrest hst1
          refine ⟨st', ?_, ?_⟩
          · rw [detect_loop_cons_ok B now _ rest _ _ hstep, h1]
            simp [outlierPairTrue, hefb]
          · rw [h2]
            simp [outlierPairFalse, hefb]
    · have hstep : process_point B now (anoms, st) (p, pr) = .ok (anoms, st) := by
        simp [process_point, hpr]
      obtain ⟨st', h1, h2⟩ := ih anoms st hrest hst
      refine ⟨st', ?_, ?_⟩
      · rw [detect_loop_cons_ok B now _ rest _ _ hstep, h1]
        simp [outlierPairTrue, outlierPairFalse, hpr]
      · rw [h2]
        simp [outlierPairFalse, hpr]

/-! ### Characterizing `detect_anomalies` in terms of the entry state -/

theorem zip_self_map (l : List α) (f : α → β) :
    l.zip (l.map f) = l.map (fun a => (a, f a)) := by
  induction l with
  | nil => rfl
  | cons a as ih => simp [ih]

/-- `detect_anomalies` on a trained state over a batch of complete records
(with a feature-complete buffer, so mid-batch retrains succeed): it returns
exactly the anomalies of the records the ENTRY state labels outlier with
`engineFailure=true`, in batch order, and appends to the training buffer
exactly the records the ENTRY state labels outlier with
`engineFailure=false`, in batch order.  All labels come from the model and
scaler as they were at the start of the call. -/
theorem detect_anomalies_characterization (B : Backend σ μ) (now : ℚ)
    (s : DetState σ μ) (batch : List Record)
    (htr : s.is_trained = true)
    (hb : ∀ p ∈ batch, complete p = true)
    (hbuf : ∀ q ∈ s.training_data, featuresComplete q = true) :
    ∃ s', detect_anomalies B now s batch =
        .ok ((batch.filter (outlierRecTrue B s)).map (mkAnomaly now), s') ∧
      s'.training_data = s.training_data ++ batch.filter (outlierRecFalse B s) := by
  have hx : extractAll batch = .ok (batch.map featsOf) :=
    extractAll_complete batch (fun p hp => by
      have hc := hb p hp
      simp only [complete, Bool.and_eq_true] at hc
      exact hc.2.1)
  have hzip : batch.zip (((batch.map featsOf).map (B.scalerTransform s.scaler)).map
      (B.modelPredict s.model)) =
      batch.map (fun p => (p, B.modelPredict s.model
        (B.scalerTransform s.scaler (featsOf p)))) := by
    rw [List.map_map, List.map_map, zip_self_map]
    rfl
  have hpts : ∀ pp ∈ batch.map (fun p => (p, B.modelPredict s.model
      (B.scalerTransform s.scaler (featsOf p)))), complete pp.1 = true := by
    intro pp hpp
    obtain ⟨p, hp, rfl⟩ := List.mem_map.mp hpp
    exact hb p hp
  obtain ⟨st', h1, h2⟩ := detect_loop_spec B now
    (batch.map (fun p => (p, B.modelPredict s.model
      (B.scalerTransform s.scaler (featsOf p))))) [] s hpts hbuf
  have hpredT : (outlierPairTrue ∘ fun p : Record => (p, B.modelPredict s.model
      (B.scalerTransform s.scaler (featsOf p)))) = outlierRecTrue B s := by
    funext p
    rfl
  have hpredF : (outlierPairFalse ∘ fun p : Record => (p, B.modelPredict s.model
      (B.scalerTransform s.scaler (featsOf p)))) = outlierRecFalse B s := by
    funext p
    rfl
  have hmk : ((fun pp : Record × Int => mkAnomaly now pp.1) ∘
      fun p : Record => (p, B.modelPredict s.model
        (B.scalerTransform s.scaler (featsOf p)))) = mkAnomaly now := by
    funext p
    rfl
  have hfst : (Prod.fst ∘ fun p : Record => (p, B.modelPredict s.model
      (B.scalerTransform s.scaler (featsOf p)))) = id := rfl
  refine ⟨st', ?_, ?_⟩
  · unfold detect_anomalies
    rw [htr, if_pos rfl, hx]
    simp only
    rw [hzip, h1]
    rw [List.filter_map, List.map_map, hpredT, hmk, List.nil_append]
  · rw [h2]
    rw [List.filter_map, List.map_map, hpredF, hfst, List.map_id]

/-! ### Claim theorems -/

/-- C7: `calculate_severity` is a total pure function of vibration,
non-decreasing in vibration with tiers ordered LOW < MEDIUM < HIGH <
CRITICAL; severity(9.0)=CRITICAL, severity(7.0)=HIGH, severity(5.0)=MEDIUM,
severity(3.0)=LOW. -/
theorem C7_severity_monotone (v1 v2 : ℚ) (h : v1 ≤ v2) :
    sevRank (calculate_severity v1) ≤ sevRank (calculate_severity v2) ∧
    sevRank Severity.LOW < sevRank Severity.MEDIUM ∧
    sevRank Severity.MEDIUM < sevRank Severity.HIGH ∧
    sevRank Severity.HIGH < sevRank Severity.CRITICAL ∧
    calculate_severity 9 = Severity.CRITICAL ∧
    calculate_severity 7 = Severity.HIGH ∧
    calculate_severity 5 = Severity.MEDIUM ∧
    calculate_severity 3 = Severity.LOW := by
  refine ⟨?_, by decide, by decide, by decide,
    by norm_num [calculate_severity], by norm_num [calculate_severity],
    by norm_num [calculate_severity], by norm_num [calculate_severity]⟩
  unfold calculate_severity
  split_ifs <;> simp [sevRank] <;> linarith

/-- C7 witness: the monotonicity instance at vibration values 2 and 9. -/
theorem C7_severity_monotone_witness :
    sevRank (calculate_severity 2) ≤ sevRank (calculate_severity 9) ∧
    sevRank Severity.LOW < sevRank Severity.MEDIUM ∧
    sevRank Severity.MEDIUM < sevRank Severity.HIGH ∧
    sevRank Severity.HIGH < sevRank Severity.CRITICAL ∧
    calculate_severity 9 = Severity.CRITICAL ∧
    calculate_severity 7 = Severity.HIGH ∧
    calculate_severity 5 = Severity.MEDIUM ∧
    calculate_severity 3 = Severity.LOW :=
  C7_severity_monotone 2 9 (by norm_num)

/-- C8: `save_anomalies` reads the persisted collection (a missing or
unparsable store reads as empty rather than failing) and rewrites the store
as the prior entries followed by the new anomalies in order; appending to a
store that does not exist creates it with exactly the new anomalies, and a
second append preserves the earlier entries in order. -/
theorem C8_store_append (st : StoreFile) (xs ys : List Anomaly) :
    save_anomalies StoreFile.missing xs = StoreFile.stored xs ∧
    save_anomalies StoreFile.corrupt xs = StoreFile.stored xs ∧
    save_anomalies st xs = StoreFile.stored (read_store st ++ xs) ∧
    read_store (save_anomalies st xs) = read_store st ++ xs ∧
    read_store (save_anomalies (save_anomalies st xs) ys) =
      read_store st ++ xs ++ ys := by
  refine ⟨?_, ?_, rfl, rfl, ?_⟩ <;> simp [save_anomalies, read_store]

/-- C3 (amended): scoring while the model is untrained does not raise an
error: `detect_anomalies` returns successfully with the EMPTY anomaly list
and the state unchanged (printing a skip notice), indistinguishable by
return value from a trained call that found no anomalies. -/
theorem C3_untrained_returns_empty (B : Backend σ μ) (now : ℚ)
    (s : DetState σ μ) (batch : List Record) (h : s.is_trained = false) :
    detect_anomalies B now s batch = .ok ([], s) := by
  unfold detect_anomalies
  rw [h]
  rfl

/-- C3 witness: the untrained concrete state on a nonempty batch. -/
theorem C3_untrained_returns_empty_witness :
    detect_anomalies B0 0 sU [rTrue] = .ok ([], sU) :=
  C3_untrained_returns_empty B0 0 sU [rTrue] rfl

/-- C3 counterexample: scoring a NONEMPTY batch on the untrained state is a
successful call returning the empty anomaly list — not a failure — refuting
the claim that an untrained score always fails with ModelNotTrainedError
and never silently returns an empty result. -/
theorem C3_counterexample :
    detect_anomalies B0 0 sU [rTrue] = .ok ([], sU) ∧
    ([rTrue] : List Record) ≠ [] :=
  ⟨rfl, by simp⟩

/-- C5: `train_model` with fewer than 120 vectors reports failure (returns
`False`) and leaves the entire prior state — trained flag, scaler, model,
buffer, counter — unchanged; with exactly 120 (feature-complete) vectors it
succeeds, refits scaler and model and sets trained=true. -/
theorem C5_fit_threshold (B : Backend σ μ) (s : DetState σ μ) (td : List Record) :
    (td.length < 120 → train_model B s td = .ok (false, s)) ∧
    (td.length = 120 → (∀ p ∈ td, featuresComplete p = true) →
      ∃ sc m, train_model B s td =
        .ok (true, { s with scaler := sc, model := m, is_trained := true })) := by
  constructor
  · intro h
    unfold train_model
    rw [if_pos h]
  · intro hlen hcomp
    unfold train_model
    rw [if_neg (by omega), extractAll_complete td hcomp]
    exact ⟨_, _, rfl⟩

/-- C5 witness: a 1-record fit is refused with state untouched; a
120-record fit succeeds and sets the trained flag. -/
theorem C5_fit_threshold_witness :
    train_model B0 s0 [rTrain] = .ok (false, s0) ∧
    ∃ sc m, train_model B0 s0 (List.replicate 120 rTrain) =
      .ok (true, { s0 with scaler := sc, model := m, is_trained := true }) :=
  ⟨(C5_fit_threshold B0 s0 [rTrain]).1 (by simp),
   (C5_fit_threshold B0 s0 (List.replicate 120 rTrain)).2 (by simp)
     (fun p hp => by rw [(List.eq_of_mem_replicate hp)]; rfl)⟩

/-- C6: when the counter threshold triggers a retrain but the buffer (after
appending the false positive) still has fewer than 120 points, the retrain
is a no-op — scaler, model and trained flag are retained — and the counter
is nevertheless reset to 0. -/
theorem C6_retrain_noop_resets (B : Backend σ μ) (now ts alt spd pit vib : ℚ)
    (tp : Option Bool) (s : DetState σ μ)
    (htr : s.is_trained = true)
    (hcnt : s.incorrect_anomalies = 10)
    (hlen : s.training_data.length + 1 < 120)
    (hout : B.modelPredict s.model (B.scalerTransform s.scaler [alt, spd, pit, vib]) = -1) :
    detect_anomalies B now s [mkRec ts alt spd pit vib (some false) tp] =
      .ok ([], { s with
        training_data := s.training_data ++ [mkRec ts alt spd pit vib (some false) tp],
        incorrect_anomalies := 0 }) := by
  unfold detect_anomalies
  rw [htr, if_pos rfl]
  have hx : extractAll [mkRec ts alt spd pit vib (some false) tp] =
      .ok [[alt, spd, pit, vib]] := rfl
  rw [hx]
  simp only [List.map_cons, List.map_nil, hout]
  show detect_loop B now [(mkRec ts alt spd pit vib (some false) tp, -1)] ([], s) = _
  unfold detect_loop process_point
  simp only [if_pos rfl]
  have hbld : build_anomaly now (mkRec ts alt spd pit vib (some false) tp) =
      .ok { timestamp := ts, altitude := alt, airspeed := spd, pitch := pit,
            vibration := vib, engineFailure := false, detected_at := now,
            severity := calculate_severity vib } := rfl
  rw [hbld]
  simp only [Bool.false_eq_true, if_false]
  have hthr : ((10 : Nat) + 1 > 10) := by omega
  unfold train_model
  simp only [hcnt, List.length_append, List.length_cons, List.length_nil]
  rw [if_pos hthr, if_pos (by omega : s.training_data.length + (0 + 1) < 120)]
  simp [detect_loop, htr]

/-- C6 witness: concrete instance — counter at 10, empty buffer, one false
positive: the fit is refused (1 < 120) yet the counter resets. -/
theorem C6_retrain_noop_resets_witness :
    detect_anomalies B0 0 { s0 with incorrect_anomalies := 10 }
      [mkRec 101 31000 440 1 7 (some false) (some false)] =
      .ok ([], { s0 with
        training_data := [mkRec 101 31000 440 1 7 (some false) (some false)],
        incorrect_anomalies := 0 }) :=
  C6_retrain_noop_resets B0 0 101 31000 440 1 7 (some false)
    { s0 with incorrect_anomalies := 10 } rfl rfl (by norm_num [s0]) (by norm_num [B0, s0])

/-- C1: with 10 false positives already counted since the last reset, the
next (11th) false-positive outlier triggers a retrain of the model over the
full TrainingBuffer (the new record included) and resets the counter to 0;
with only 9 counted, the next (10th) false positive merely increments the
counter to 10 — no retrain, model/scaler/flag untouched. -/
theorem C1_retrain_after_eleven (B : Backend σ μ) (now ts alt spd pit vib : ℚ)
    (tp : Option Bool) (s : DetState σ μ)
    (htr : s.is_trained = true)
    (hbuf : ∀ q ∈ s.training_data, featuresComplete q = true)
    (hout : B.modelPredict s.model (B.scalerTransform s.scaler [alt, spd, pit, vib]) = -1) :
    (s.incorrect_anomalies = 10 →
      ∃ b s2, train_model B
          { s with
            training_data := s.training_data ++ [mkRec ts alt spd pit vib (some false) tp],
            incorrect_anomalies := 11 }
          (s.training_data ++ [mkRec ts alt spd pit vib (some false) tp]) =
            .ok (b, s2) ∧
        detect_anomalies B now s [mkRec ts alt spd pit vib (some false) tp] =
          .ok ([], { s2 with incorrect_anomalies := 0 })) ∧
    (s.incorrect_anomalies = 9 →
      detect_anomalies B now s [mkRec ts alt spd pit vib (some false) tp] =
        .ok ([], { s with
          training_data := s.training_data ++ [mkRec ts alt spd pit vib (some false) tp],
          incorrect_anomalies := 10 })) := by
  have hbuf1 : ∀ q ∈ s.training_data ++ [mkRec ts alt spd pit vib (some false) tp],
      featuresComplete q = true := by
    intro q hq
    rcases List.mem_append.mp hq with h | h
    · exact hbuf q h
    · simp only [List.mem_singleton] at h
      subst h
      rfl
  constructor
  · intro hcnt
    obtain ⟨b, s2, htm, htd, hci, hit⟩ := train_model_ok B
      { s with
        training_data := s.training_data ++ [mkRec ts alt spd pit vib (some false) tp],
        incorrect_anomalies := 11 }
      (s.training_data ++ [mkRec ts alt spd pit vib (some false) tp]) hbuf1
    refine ⟨b, s2, htm, ?_⟩
    unfold detect_anomalies
    rw [htr, if_pos rfl]
    rw [show extractAll [mkRec ts alt spd pit vib (some false) tp] =
      .ok [[alt, spd, pit, vib]] from rfl]
    simp only [List.map_cons, List.map_nil, hout]
    show detect_loop B now [(mkRec ts alt spd pit vib (some false) tp, -1)] ([], s) = _
    unfold detect_loop process_point
    simp only [if_pos rfl]
    rw [show build_anomaly now (mkRec ts alt spd pit vib (some false) tp) =
      .ok { timestamp := ts, altitude := alt, airspeed := spd, pitch := pit,
            vibration := vib, engineFailure := false, detected_at := now,
            severity := calculate_severity vib } from rfl]
    simp only [Bool.false_eq_true, if_false, hcnt, Nat.reduceAdd]
    rw [if_pos (by omega : (11 : Nat) > 10), htm]
    simp [detect_loop]
  · intro hcnt
    unfold detect_anomalies
    rw [htr, if_pos rfl]
    rw [show extractAll [mkRec ts alt spd pit vib (some false) tp] =
      .ok [[alt, spd, pit, vib]] from rfl]
    simp only [List.map_cons, List.map_nil, hout]
    show detect_loop B now [(mkRec ts alt spd pit vib (some false) tp, -1)] ([], s) = _
    unfold detect_loop process_point
    simp only [if_pos rfl]
    rw [show build_anomaly now (mkRec ts alt spd pit vib (some false) tp) =
      .ok { timestamp := ts, altitude := alt, airspeed := spd, pitch := pit,
            vibration := vib, engineFailure := false, detected_at := now,
            severity := calculate_severity vib } from rfl]
    simp only [Bool.false_eq_true, if_false, hcnt, Nat.reduceAdd]
    rw [if_neg (by omega : ¬ ((10 : Nat) > 10))]
    simp [detect_loop, htr]

/-- C1 witness: concrete instance of the 11th-false-positive branch —
counter at 10, one more false positive retrains (here a refused no-op fit
over a 1-record buffer) and resets the counter. -/
theorem C1_retrain_after_eleven_witness :
    ∃ b s2, train_model B0
        { s0 with
          training_data := [mkRec 101 31000 440 1 7 (some false) (some false)],
          incorrect_anomalies := 11 }
        [mkRec 101 31000 440 1 7 (some false) (some false)] = .ok (b, s2) ∧
      detect_anomalies B0 0 { s0 with incorrect_anomalies := 10 }
        [mkRec 101 31000 440 1 7 (some false) (some false)] =
        .ok ([], { s2 with incorrect_anomalies := 0 }) :=
  (C1_retrain_after_eleven B0 0 101 31000 440 1 7 (some false)
    { s0 with incorrect_anomalies := 10 } rfl (by simp [s0])
    (by norm_num [B0, s0])).1 rfl

/-- C2: a record the entry state scores as outlier with
`engineFailure=false` never appears in the returned anomaly set (every
returned anomaly carries `engineFailure=true`), and after the call it sits
in the TrainingBuffer exactly once. -/
theorem C2_false_positive_excluded (B : Backend σ μ) (now : ℚ)
    (s : DetState σ μ) (batch : List Record) (r : Record)
    (htr : s.is_trained = true)
    (hb : ∀ p ∈ batch, complete p = true)
    (hbuf : ∀ q ∈ s.training_data, featuresComplete q = true)
    (hcount : batch.count r = 1)
    (hout : isOutlier B s r = true)
    (hef : r.engineFailure = some false)
    (hnot : s.training_data.count r = 0) :
    ∃ anoms s', detect_anomalies B now s batch = .ok (anoms, s') ∧
      (∀ a ∈ anoms, a.engineFailure = true) ∧
      mkAnomaly now r ∉ anoms ∧
      s'.training_data.count r = 1 := by
  obtain ⟨s', h1, h2⟩ := detect_anomalies_characterization B now s batch htr hb hbuf
  have hall : ∀ a ∈ (batch.filter (outlierRecTrue B s)).map (mkAnomaly now),
      a.engineFailure = true := by
    intro a ha
    obtain ⟨p, hp, rfl⟩ := List.mem_map.mp ha
    have hpf : outlierRecTrue B s p = true := List.of_mem_filter hp
    simp only [outlierRecTrue, Bool.and_eq_true, beq_iff_eq] at hpf
    simp [mkAnomaly, hpf.2]
  refine ⟨_, s', h1, hall, ?_, ?_⟩
  · intro hmem
    have hfe := hall (mkAnomaly now r) hmem
    rw [mkAnomaly] at hfe
    simp [hef] at hfe
  · rw [h2, List.count_append, hnot, List.count_filter, hcount]
    simp only [outlierRecFalse, hout, Bool.true_and, hef, beq_self_eq_true]

/-- C2 witness: the concrete false positive `rFP` in a two-record batch is
excluded from the anomaly set and lands in the buffer exactly once. -/
theorem C2_false_positive_excluded_witness :
    ∃ anoms s', detect_anomalies B0 0 s0 [rFP, rTrue] = .ok (anoms, s') ∧
      (∀ a ∈ anoms, a.engineFailure = true) ∧
      mkAnomaly 0 rFP ∉ anoms ∧
      s'.training_data.count rFP = 1 :=
  C2_false_positive_excluded B0 0 s0 [rFP, rTrue] rFP rfl (by decide)
    (by simp [s0]) (by decide) (by decide) rfl (by simp [s0])

/-- C10: within one detection call the inlier/outlier label of every record
comes from the model and scaler as they were at the START of the call: the
returned anomalies are exactly the records the ENTRY state labels outlier
with `engineFailure=true`, in order, and the buffer grows by exactly the
records the ENTRY state labels outlier with `engineFailure=false`, in
order — a mid-batch retrain never changes the labels applied to later
records of the same batch. -/
theorem C10_labels_from_entry_state (B : Backend σ μ) (now : ℚ)
    (s : DetState σ μ) (batch : List Record)
    (htr : s.is_trained = true)
    (hb : ∀ p ∈ batch, complete p = true)
    (hbuf : ∀ q ∈ s.training_data, featuresComplete q = true) :
    ∃ s', detect_anomalies B now s batch =
        .ok ((batch.filter (outlierRecTrue B s)).map (mkAnomaly now), s') ∧
      s'.training_data = s.training_data ++ batch.filter (outlierRecFalse B s) :=
  detect_anomalies_characterization B now s batch htr hb hbuf

/-- C10 witness: a batch whose first record (a false positive, with the
counter already at 10) triggers a mid-batch retrain; the later record is
still labelled by the entry state. -/
theorem C10_labels_from_entry_state_witness :
    ∃ s', detect_anomalies B0 0 { s0 with incorrect_anomalies := 10 } [rFP, rTrue] =
        .ok (([rFP, rTrue].filter
          (outlierRecTrue B0 { s0 with incorrect_anomalies := 10 })).map (mkAnomaly 0), s') ∧
      s'.training_data =
        ({ s0 with incorrect_anomalies := 10 } : DetState Unit (List Vec)).training_data ++
          [rFP, rTrue].filter (outlierRecFalse B0 { s0 with incorrect_anomalies := 10 }) :=
  C10_labels_from_entry_state B0 0 { s0 with incorrect_anomalies := 10 } [rFP, rTrue]
    rfl (by decide) (by simp [s0])

/-- C4 (amended): a record the model scores as outlier whose
`engineFailure` field is absent is NOT treated as `engineFailure=true`:
building the anomaly dict raises KeyError('engineFailure'), which aborts
the detection call; no anomaly for the record is returned. -/
theorem C4_missing_engine_failure_raises (B : Backend σ μ)
    (now ts alt spd pit vib : ℚ) (tp : Option Bool) (s : DetState σ μ)
    (htr : s.is_trained = true)
    (hout : B.modelPredict s.model (B.scalerTransform s.scaler [alt, spd, pit, vib]) = -1) :
    detect_anomalies B now s [mkRec ts alt spd pit vib none tp] =
      .error (s, .keyError "engineFailure") := by
  unfold detect_anomalies
  rw [htr, if_pos rfl]
  rw [show extractAll [mkRec ts alt spd pit vib none tp] =
    .ok [[alt, spd, pit, vib]] from rfl]
  simp only [List.map_cons, List.map_nil, hout]
  show detect_loop B now [(mkRec ts alt spd pit vib none tp, -1)] ([], s) = _
  unfold detect_loop process_point
  simp only [if_pos rfl]
  rw [show build_anomaly now (mkRec ts alt spd pit vib none tp) =
    .error (.keyError "engineFailure") from rfl]
  rfl

/-- C4 witness: instance of the amended claim on the concrete state. -/
theorem C4_missing_engine_failure_raises_witness :
    detect_anomalies B0 0 s0 [mkRec 103 30000 450 2 9 none (some false)] =
      .error (s0, .keyError "engineFailure") :=
  C4_missing_engine_failure_raises B0 0 103 30000 450 2 9 (some false) s0 rfl
    (by norm_num [B0, s0])

/-- C4 counterexample: `rNoEF` is scored outlier and its `engineFailure`
field is absent; the claim says it is treated as true and included in the
returned anomaly set, but the call raises KeyError('engineFailure') and
returns no anomaly set at all. -/
theorem C4_counterexample :
    detect_anomalies B0 0 s0 [rNoEF] = .error (s0, .keyError "engineFailure") := rfl

theorem extract_features_error_of_incomplete (p : Record)
    (h : featuresComplete p = false) : ∃ e, extract_features p = .error e := by
  obtain ⟨ts, alt, spd, pit, vib, ef, tp⟩ := p
  cases alt with
  | none => exact ⟨.keyError "altitude", rfl⟩
  | some a =>
    cases spd with
    | none => exact ⟨.keyError "airspeed", rfl⟩
    | some b =>
      cases pit with
      | none => exact ⟨.keyError "pitch", rfl⟩
      | some c =>
        cases vib with
        | none => exact ⟨.keyError "vibration", rfl⟩
        | some d => simp [featuresComplete] at h

theorem extractAll_error_of_incomplete (l : List Record)
    (h : ∃ p ∈ l, featuresComplete p = false) :
    ∃ e, extractAll l = .error e := by
  induction l with
  | nil =>
    obtain ⟨p, hp, _⟩ := h
    simp at hp
  | cons p ps ih =>
    by_cases hp : featuresComplete p = true
    · obtain ⟨q, hq, hqf⟩ := h
      rcases List.mem_cons.mp hq with rfl | hq'
      · rw [hp] at hqf
        cases hqf
      · obtain ⟨e, he⟩ := ih ⟨q, hq', hqf⟩
        refine ⟨e, ?_⟩
        unfold extractAll
        rw [extract_features_complete p hp, he]
        rfl
    · simp only [Bool.not_eq_true] at hp
      obtain ⟨e, he⟩ := extract_features_error_of_incomplete p hp
      refine ⟨e, ?_⟩
      unfold extractAll
      rw [he]
      rfl

/-- C9 (amended): a scoring record missing a required feature field makes
feature extraction fail with a KeyError that propagates out of
`detect_anomalies`; caught at the cycle's top-level handler, it aborts the
ENTIRE batch for that cycle — no record of the batch is processed, nothing
is persisted, state and store are unchanged — and the cycle reports the
error (long backoff), the loop itself continuing. -/
theorem C9_missing_field_aborts_batch (B : Backend σ μ) (now : ℚ)
    (s : DetState σ μ) (store : StoreFile) (batch : List Record)
    (htr : s.is_trained = true)
    (htp : ∀ p ∈ batch, p.trainingPhase = some false)
    (hinc : ∃ p ∈ batch, featuresComplete p = false) :
    runCycle B now s store batch = (s, store, true) := by
  obtain ⟨e, he⟩ := extractAll_error_of_incomplete batch hinc
  have hne : batch.isEmpty = false := by
    obtain ⟨p, hp, _⟩ := hinc
    cases batch with
    | nil => simp at hp
    | cons a as => rfl
  have htrain : batch.filter (fun d => d.trainingPhase.getD true) = [] := by
    rw [List.filter_eq_nil_iff]
    intro a ha
    rw [htp a ha]
    simp
  have htest : batch.filter (fun d => !(d.trainingPhase.getD true)) = batch := by
    rw [List.filter_eq_self]
    intro a ha
    rw [htp a ha]
    rfl
  have hdet : detect_anomalies B now s batch = .error (s, e) := by
    unfold detect_anomalies
    rw [htr, if_pos rfl, he]
  simp [runCycle, trainPhaseStep, scorePhaseStep, hne, htrain, htest, htr, hdet]

/-- C9 witness: instance of the amended claim — the batch [rTrue, rBad]
(rBad lacks `altitude`) leaves state and store untouched and reports the
error. -/
theorem C9_missing_field_aborts_batch_witness :
    runCycle B0 0 s0 StoreFile.missing [rTrue, rBad] = (s0, StoreFile.missing, true) :=
  C9_missing_field_aborts_batch B0 0 s0 StoreFile.missing [rTrue, rBad] rfl
    (by decide) ⟨rBad, by decide, rfl⟩

/-- C9 counterexample: with `[rTrue]` alone the cycle persists rTrue's
anomaly; in the batch `[rTrue, rBad]` the malformed rBad aborts everything —
rTrue is NOT still processed (nothing is persisted), refuting "this failure
aborts processing of that record only ... the other records in the same
batch are still processed". -/
theorem C9_counterexample :
    runCycle B0 0 s0 StoreFile.missing [rTrue] =
      (s0, StoreFile.stored [mkAnomaly 0 rTrue], false) ∧
    runCycle B0 0 s0 StoreFile.missing [rTrue, rBad] =
      (s0, StoreFile.missing, true) :=
  ⟨rfl, rfl⟩
